import Mathlib

/-!
Shallow embedding of the Bluetooth session orchestrator of
`src/app/bt_manager.py` (class `BluetoothManager`), together with the
transport helpers it relies on (`_run_cmd`, `_btctl`, `_read_until`,
`_clean_ansi`) and its persisted-config handling (`_load_config`,
`_save_config`).

The external world (the `bluetoothctl` shell and the OS) is modelled as an
explicit environment: a stream of one-shot `info` responses consumed in
order, and the line streams read by the interactive pairing / connecting
sessions.  Every directive the orchestrator sends to the shell is recorded
in a trace so that claims about which directives are (not) issued can be
stated.
-/

namespace BtManager

/-! ### Python string primitives -/

/-- Python whitespace class used by the regex escapes and by `str.strip`:
space, tab, newline, carriage return, vertical tab, form feed. -/
def isPySpace (c : Char) : Bool :=
  c = ' ' || c = '\t' || c = '\n' || c = '\r' || c = Char.ofNat 11 || c = Char.ofNat 12

/-- `str.strip()` on a character list: drop whitespace at both ends. -/
def stripChars (l : List Char) : List Char :=
  ((l.dropWhile isPySpace).reverse.dropWhile isPySpace).reverse

/-- Python `s.strip()`. -/
def pyStrip (s : String) : String := String.mk (stripChars s.data)

/-- `pat` occurs as a prefix of `l` (character-exact). -/
def prefixAt : List Char → List Char → Bool
  | [], _ => true
  | _ :: _, [] => false
  | p :: ps, c :: cs => (p = c) && prefixAt ps cs

/-- `pat` occurs as a contiguous substring of `l`; this is Python's
`pat in s` on the underlying characters. -/
def containsCh (pat : List Char) : List Char → Bool
  | [] => pat.isEmpty
  | c :: cs => prefixAt pat (c :: cs) || containsCh pat cs

/-- Python `pat in s` (substring test). -/
def strContains (s pat : String) : Bool := containsCh pat.data s.data

/-- Python `str.lower()` on the underlying characters (the keyword texts
involved are ASCII, where the two agree). -/
def toLowerCh (l : List Char) : List Char := l.map Char.toLower

/-- Case-insensitive containment, Python `kw.lower() in line.lower()`. -/
def strContainsCI (s pat : String) : Bool :=
  containsCh (toLowerCh pat.data) (toLowerCh s.data)

/-! ### `_clean_ansi`: removal of `ESC [ digits/semicolons m` sequences.
Fuel-indexed so the recursion is structural; the fuel is the input length,
and each step consumes at least one character, so the fuel never runs out. -/

def dropAnsiAux : Nat → List Char → List Char
  | 0, l => l
  | _ + 1, [] => []
  | fuel + 1, c :: cs =>
    if c = Char.ofNat 27 then
      match cs with
      | '[' :: rest =>
        match rest.dropWhile (fun d => d.isDigit || d = ';') with
        | 'm' :: tail => dropAnsiAux fuel tail
        | _ => c :: dropAnsiAux fuel cs
      | _ => c :: dropAnsiAux fuel cs
    else c :: dropAnsiAux fuel cs

/-- `_clean_ansi(text)`: strip ANSI colour escape sequences. -/
def cleanAnsi (s : String) : String := String.mk (dropAnsiAux s.data.length s.data)

/-! ### Regex field extraction used by `_get_name`
(`re.search(r"Alias:\s+(.+)", output)` and the `Name:` variant): find the
first occurrence of the tag followed by at least one whitespace character,
capture the rest of that line, and strip it. -/

/-- After a tag occurrence, match `\s+(.+)`: at least one whitespace
character, then the (nonempty) remainder of the line. -/
def capAfter (l : List Char) : Option (List Char) :=
  if (l.takeWhile isPySpace).isEmpty then none
  else
    let body := l.dropWhile isPySpace
    let cap := body.takeWhile (fun c => c ≠ '\n')
    if cap.isEmpty then none else some cap

/-- Leftmost occurrence of `tag` followed by a `\s+(.+)` match. -/
def searchTag (tag : List Char) : List Char → Option (List Char)
  | [] => none
  | c :: cs =>
    if prefixAt tag (c :: cs) then
      match capAfter ((c :: cs).drop tag.length) with
      | some cap => some cap
      | none => searchTag tag cs
    else searchTag tag cs

/-- `_get_name`: read the device name from `bluetoothctl info` output,
trying the `Alias:` field first and the `Name:` field second, with the
fallback string the source uses when neither is present. -/
def getName (output : String) : String :=
  match searchTag "Alias:".data output.data with
  | some cap => String.mk (stripChars cap)
  | none =>
    match searchTag "Name:".data output.data with
    | some cap => String.mk (stripChars cap)
    | none => "Unbekannt"

/-! ### Transport: `_run_cmd` and `_btctl`
A single external process interaction is modelled by its outcome: it
completed with some stdout text, it timed out, or spawning/IO failed with
an exception.  Both helpers catch every exception and degrade to the empty
string; their Lean counterparts are total functions into `String`. -/

inductive ProcOutcome where
  | completed (stdout : String)
  | timedOut
  | spawnFailed (msg : String)
deriving Repr, DecidableEq

/-- `_run_cmd(cmd, timeout)`: on completion return `stdout.strip()`; on
timeout or any exception return the empty string. -/
def runCmd (_cmd : String) (o : ProcOutcome) : String :=
  match o with
  | ProcOutcome.completed out => pyStrip out
  | ProcOutcome.timedOut => ""
  | ProcOutcome.spawnFailed _ => ""

/-- `_btctl(command, timeout)`: pipe-mode bluetoothctl query; on completion
return the ANSI-cleaned stdout; on `TimeoutExpired` or any other exception
return the empty string. -/
def btctlQuery (_command : String) (o : ProcOutcome) : String :=
  match o with
  | ProcOutcome.completed out => cleanAnsi out
  | ProcOutcome.timedOut => ""
  | ProcOutcome.spawnFailed _ => ""

/-! ### `_read_until`: scan the session's output lines for the first line
containing (case-insensitively) one of the keywords; the matched keyword is
the first one, in keyword-list order, contained in that line.  A `none`
result models the stream ending or the timeout elapsing with no match. -/

/-- The keyword (in list order) matched by one output line, if any. -/
def lineKeyword (keywords : List String) (line : String) : Option String :=
  keywords.find? (fun kw => strContainsCI line kw)

/-- `_read_until(proc, keywords, timeout_sec)` reduced to the line stream
the session delivers before timeout: the first matched keyword, or `none`. -/
def readUntil (keywords : List String) : List String → Option String
  | [] => none
  | l :: ls =>
    match lineKeyword keywords l with
    | some kw => some kw
    | none => readUntil keywords ls

/-- The keyword list `_do_pair` waits for. -/
def pairKeywords : List String :=
  ["Pairing successful", "Failed to pair", "org.bluez.Error",
   "not available", "AlreadyExists", "Connected: yes"]

/-- The keyword list `_do_connect` waits for. -/
def connectKeywords : List String :=
  ["Connection successful", "Connected: yes", "Failed to connect",
   "not available", "AlreadyConnected", "profile-unavailable", "br-connection"]

/-- `_do_pair(mac)` reduced to the line stream of its interactive session:
wait for a pairing keyword; if the keyword exists and contains
"failed"/"error"/"not available" (case-insensitively), fail with the
user-facing pairing message; otherwise (other keyword, or none) succeed. -/
def doPair (lines : List String) : Except String Unit :=
  match readUntil pairKeywords lines with
  | some kw =>
    if ["failed", "error", "not available"].any (fun x => containsCh x.data (toLowerCh kw.data)) then
      Except.error "Pairing fehlgeschlagen - ist das Gerät im Pairing-Modus?"
    else Except.ok ()
  | none => Except.ok ()

/-- `_do_connect(mac)` reduced to the line stream of its interactive
session: success on "successful"/"connected: yes"/"alreadyconnected"
keywords, specific errors for profile-unavailable and br-connection
keywords, and a generic failure otherwise (also when no keyword matched). -/
def doConnect (lines : List String) : Except String Unit :=
  match readUntil connectKeywords lines with
  | some kw =>
    if ["successful", "connected: yes", "alreadyconnected"].any
        (fun x => containsCh x.data (toLowerCh kw.data)) then
      Except.ok ()
    else if containsCh "profile-unavailable".data (toLowerCh kw.data) then
      Except.error "Audio-Profil nicht verfügbar - PulseAudio neu starten"
    else if containsCh "br-connection".data (toLowerCh kw.data) then
      Except.error ("Bluetooth-Fehler: " ++ kw)
    else Except.error "Verbindung konnte nicht hergestellt werden"
  | none => Except.error "Verbindung konnte nicht hergestellt werden"

/-! ### Manager state and persisted config -/

/-- The JSON object persisted to `bluetooth.json`. -/
structure SavedConfig where
  last_device : Option String
  last_device_name : Option String
deriving Repr, DecidableEq

/-- The mutable fields of `BluetoothManager` relevant to the connection
workflow, plus the persisted config file's content (`none` models a
missing or corrupt file). -/
structure BTState where
  connected_device : Option String
  connected_device_name : Option String
  last_check_time : Int
  savedFile : Option SavedConfig
deriving Repr, DecidableEq

/-- `_save_config`: rewrite the config file wholesale from the current
in-memory state. -/
def saveConfig (st : BTState) : BTState :=
  { st with savedFile := some { last_device := st.connected_device,
                                last_device_name := st.connected_device_name } }

/-- `__init__` followed by `_load_config`: restore the last-device fields
from the file when it parses, otherwise start with no device; the
connected-check cache timestamp starts at 0. -/
def initManager (file : Option SavedConfig) : BTState :=
  match file with
  | some cfg =>
    { connected_device := cfg.last_device,
      connected_device_name := cfg.last_device_name,
      last_check_time := 0, savedFile := file }
  | none =>
    { connected_device := none, connected_device_name := none,
      last_check_time := 0, savedFile := none }

/-- `_set_connected(mac, name)`: record the device, defaulting the name,
refresh the cache timestamp, and persist. -/
def setConnected (mac name : String) (now : Int) (st : BTState) : BTState :=
  saveConfig { st with
    connected_device := some mac,
    connected_device_name := some (if name = "" then "Unbekannt" else name),
    last_check_time := now }

/-- `_get_connected_live`: cached live-connection check.  The guard
`if not self.connected_device: return None` uses Python truthiness, so
both a null and an empty-string device return early with no query and no
state change.  `info` is the transport's response to the one `info` query
this may issue; it is only consulted when the 10-second cache window has
elapsed. -/
def getConnectedLive (now : Int) (info : String) (st : BTState) :
    Option String × BTState :=
  match st.connected_device with
  | none => (none, st)
  | some dev =>
    if dev = "" then (none, st)
    else if now - st.last_check_time < 10 then (some dev, st)
    else
      let st1 := { st with last_check_time := now }
      if strContains info "Connected: yes" then (some dev, st1)
      else
        (none, saveConfig { st1 with connected_device := none,
                                     connected_device_name := none })

/-! ### The connect workflow -/

/-- Directives the orchestrator sends to the shell (or the OS), at the
granularity the claims talk about.  `powerOn` stands for the whole
`power on` / agent-registration preamble, `paRestart` for the
`systemctl --user restart pulseaudio` call. -/
inductive Directive where
  | powerOn
  | infoQ (mac : String)
  | trustD (mac : String)
  | scanOnD
  | scanOffD
  | pairD (mac : String)
  | connectD (mac : String)
  | disconnectD (mac : String)
  | paRestart
deriving Repr, DecidableEq

/-- The dictionary `connect` returns. -/
structure ConnectResult where
  success : Bool
  message : String
  name : Option String
deriving Repr, DecidableEq

/-- Environment for one `connect(mac)` call: the transport's responses to
the successive one-shot `info <mac>` queries (consumed in order; an
exhausted stream yields the empty string, the transport's fail-soft
value), and the line streams read by the pairing session and by the first
and second `_do_connect` sessions. -/
structure ConnEnv where
  infos : List String
  pairLines : List String
  connectLines1 : List String
  connectLines2 : List String
deriving Repr, DecidableEq

/-- Pop the next one-shot `info` response; empty when exhausted. -/
def popInfo : List String → String × List String
  | [] => ("", [])
  | s :: rest => (s, rest)

/-- Result of a `connect` call: the returned dictionary, the manager state
afterwards, and the trace of directives issued during the call. -/
structure ConnectOutcome where
  result : ConnectResult
  state : BTState
  trace : List Directive
deriving Repr, DecidableEq

/-- `_finalize_connect(mac)`: read the name with one more `info` query,
commit the connection state, and return success. -/
def finalizeConnect (mac : String) (now : Int) (infos : List String)
    (tr : List Directive) (st : BTState) : ConnectOutcome :=
  let (i, _) := popInfo infos
  let name := getName i
  { result := { success := true, message := "Verbunden mit " ++ name, name := some name },
    state := setConnected mac name now st,
    trace := tr ++ [Directive.infoQ mac] }

/-- The Versuch-2 polling loop: up to `n` iterations, each issuing one
`info` query; returns whether a connected state was observed, the
remaining `info` stream, and the extended trace. -/
def paWaitLoop (mac : String) : Nat → List String → List Directive →
    Bool × List String × List Directive
  | 0, infos, tr => (false, infos, tr)
  | n + 1, infos, tr =>
    let (i, rest) := popInfo infos
    let tr1 := tr ++ [Directive.infoQ mac]
    if strContains i "Connected: yes" then (true, rest, tr1)
    else paWaitLoop mac n rest tr1

/-- `connect(mac)`: the full workflow of `BluetoothManager.connect`
(body under the lock), over the explicit environment.

1. power on (+ agent preamble);
2. `_is_connected` via one `info` query — if connected, read the name and
   return "already connected" success;
3. otherwise another `info` query decides `already_paired`, the device is
   trusted, and if unpaired `_do_pair` runs (a failure there is terminal);
4. Versuch 1: disconnect, `_do_connect`, on failure re-check with an
   `info` query after the settle delay;
5. Versuch 2: disconnect, restart PulseAudio, poll `_is_connected` ten
   times;
6. Versuch 3: `_do_connect` again, then one last `info` re-check;
   otherwise fail with the second connect attempt's error message. -/
def connectBT (mac : String) (now : Int) (env : ConnEnv) (st : BTState) :
    ConnectOutcome :=
  let tr1 : List Directive := [Directive.powerOn, Directive.infoQ mac]
  let (i1, infos1) := popInfo env.infos
  if strContains i1 "Connected: yes" then
    let (i2, _) := popInfo infos1
    let name := getName i2
    { result := { success := true, message := "Bereits verbunden mit " ++ name,
                  name := some name },
      state := setConnected mac name now st,
      trace := tr1 ++ [Directive.infoQ mac] }
  else
    let (i2, infos2) := popInfo infos1
    let alreadyPaired := strContains i2 "Paired: yes"
    let tr2 := tr1 ++ [Directive.infoQ mac, Directive.trustD mac]
    let pairStep : Except String Unit × List Directive :=
      if alreadyPaired then (Except.ok (), tr2)
      else (doPair env.pairLines,
            tr2 ++ [Directive.scanOnD, Directive.scanOffD, Directive.pairD mac])
    match pairStep with
    | (Except.error msg, trP) =>
      { result := { success := false, message := msg, name := none },
        state := st, trace := trP }
    | (Except.ok _, trP) =>
      let tr3 := trP ++ [Directive.disconnectD mac, Directive.connectD mac]
      match doConnect env.connectLines1 with
      | Except.ok _ => finalizeConnect mac now infos2 tr3 st
      | Except.error _ =>
        let (i3, infos3) := popInfo infos2
        let tr4 := tr3 ++ [Directive.infoQ mac]
        if strContains i3 "Connected: yes" then finalizeConnect mac now infos3 tr4 st
        else
          let tr5 := tr4 ++ [Directive.disconnectD mac, Directive.paRestart]
          match paWaitLoop mac 10 infos3 tr5 with
          | (true, infos4, tr6) => finalizeConnect mac now infos4 tr6 st
          | (false, infos4, tr6) =>
            let tr7 := tr6 ++ [Directive.connectD mac]
            match doConnect env.connectLines2 with
            | Except.ok _ => finalizeConnect mac now infos4 tr7 st
            | Except.error e2 =>
              let (i5, infos5) := popInfo infos4
              let tr8 := tr7 ++ [Directive.infoQ mac]
              if strContains i5 "Connected: yes" then
                finalizeConnect mac now infos5 tr8 st
              else
                { result := { success := false, message := e2, name := none },
                  state := st, trace := tr8 }

/-! ### Disconnect -/

/-- Python truthiness of an optional string (`None` and `""` are falsy). -/
def truthyStr : Option String → Bool
  | none => false
  | some s => !(s = "")

/-- Python `a or b` on optional strings. -/
def pyOrStr (a b : Option String) : Option String := if truthyStr a then a else b

/-- `disconnect(mac=None)`: default to the current device; with no target,
return `False` without touching the transport or the state; otherwise
issue the disconnect directive and, if the target is the current device,
clear and persist the connection state. -/
def disconnectBT (macArg : Option String) (st : BTState) :
    Bool × BTState × List Directive :=
  match pyOrStr macArg st.connected_device with
  | none => (false, st, [])
  | some m =>
    if m = "" then (false, st, [])
    else
      let cleared :=
        if st.connected_device = some m then
          saveConfig { st with connected_device := none, connected_device_name := none }
        else st
      (true, cleared, [Directive.disconnectD m])

/-! ### Scanning: the `_scan` worker of `start_scan` -/

/-- Character class of the address regex `[0-9A-F:]`. -/
def isMacChar (c : Char) : Bool :=
  c.isDigit || ('A' ≤ c && c ≤ 'F') || c = ':'

/-- Attempt the discovery-line pattern
`Device\s+([0-9A-F:]{17})\s+(.+)` at the start of `l`: the literal
`Device`, whitespace, exactly 17 address-class characters, whitespace,
then the nonempty remainder of the line (the raw name capture). -/
def deviceAt (l : List Char) : Option (String × String) :=
  if prefixAt "Device".data l then
    let rest := l.drop 6
    if (rest.takeWhile isPySpace).isEmpty then none
    else
      let r2 := rest.dropWhile isPySpace
      let macCs := r2.take 17
      if macCs.length = 17 && macCs.all isMacChar then
        let r3 := r2.drop 17
        if (r3.takeWhile isPySpace).isEmpty then none
        else
          let r4 := r3.dropWhile isPySpace
          let cap := r4.takeWhile (fun c => c ≠ '\n')
          if cap.isEmpty then none else some (String.mk macCs, String.mk cap)
      else none
  else none

/-- Leftmost match of the discovery-line pattern (Python `re.search`):
the address and the raw (unstripped) name capture. -/
def parseDeviceLine : List Char → Option (String × String)
  | [] => none
  | c :: cs =>
    match deviceAt (c :: cs) with
    | some r => some r
    | none => parseDeviceLine cs

/-- `re.match(r'^[0-9A-F:-]+$', name)`: the whole name consists of one or
more characters from digits, `A`–`F`, colon, hyphen. -/
def hexPatOnly (name : String) : Bool :=
  !name.data.isEmpty &&
    name.data.all (fun c => c.isDigit || ('A' ≤ c && c ≤ 'F') || c = ':' || c = '-')

/-- Dictionary assignment `self._discovered_devices[mac] = name` on an
association list. -/
def insertDevice (disc : List (String × String)) (mac name : String) :
    List (String × String) :=
  if disc.any (fun p => p.1 = mac) then
    disc.map (fun p => if p.1 = mac then (mac, name) else p)
  else disc ++ [(mac, name)]

/-- One iteration of the scan loop's line handling: parse the discovery
pattern, strip the name, and add the entry unless the name is empty, equal
to the address, or matches the hex/colon/hyphen pattern. -/
def processScanLine (disc : List (String × String)) (line : String) :
    List (String × String) :=
  match parseDeviceLine line.data with
  | none => disc
  | some (mac, rawName) =>
    let name := pyStrip rawName
    if name ≠ "" && name ≠ mac && !hexPatOnly name then
      insertDevice disc mac name
    else disc

/-- What the scan worker's session delivers, in order: an output line, or
a transport exception raised at that point (ending the `try` block). -/
inductive ScanEvent where
  | outLine (s : String)
  | exnRaised
deriving Repr, DecidableEq

/-- The scan-session fields of the manager. -/
structure ScanState where
  discovered : List (String × String)
  scanning : Bool
deriving Repr, DecidableEq

/-- The `try` block of `_scan`: process events until the stream ends or an
exception is raised; either way report the discovered map accumulated so
far (the dictionary is mutated in place) and whether the block completed
normally. -/
def scanLoopBody (disc : List (String × String)) :
    List ScanEvent → Bool × List (String × String)
  | [] => (true, disc)
  | ScanEvent.exnRaised :: _ => (false, disc)
  | ScanEvent.outLine s :: evs => scanLoopBody (processScanLine disc s) evs

/-- The whole `_scan` worker: the `try` body, the `except` clause that
swallows the exception, and the `finally` clause that sets `scanning`
back to `False` on every exit path. -/
def scanThread (events : List ScanEvent) (st : ScanState) : ScanState :=
  let (_completed, d) := scanLoopBody st.discovered events
  { discovered := d, scanning := false }

/-- `start_scan(duration)`: refuse when already scanning; otherwise clear
the discovered map, mark scanning, and run the worker (modelled to
completion, since the claims are about the state after the worker exits). -/
def startScan (st : ScanState) (events : List ScanEvent) : Bool × ScanState :=
  if st.scanning then (false, st)
  else (true, scanThread events { discovered := [], scanning := true })

/-! ### Concrete fixtures used by witnesses and counterexamples -/

/-- The claim C1 scenario's `info` response. -/
def kitchenInfo : String := "Connected: yes\nAlias: Kitchen Speaker\n"

/-- Environment for the C1 witness: both `info` queries of the
already-connected path answer with the scenario text. -/
def envC1 : ConnEnv :=
  { infos := [kitchenInfo, kitchenInfo], pairLines := [],
    connectLines1 := [], connectLines2 := [] }

end BtManager

open BtManager

/-- Claim C1: if the first `info` query of a connect call reports a
connected state, connect returns success immediately, with the name parsed
from the second `info` response's Alias/Name field, and the trace contains
no pair directive and no connect directive. -/
theorem C1_already_connected_short_circuit (mac : String) (now : Int)
    (env : ConnEnv) (st : BTState) (i1 i2 : String) (rest : List String)
    (hinfos : env.infos = i1 :: i2 :: rest)
    (hconn : strContains i1 "Connected: yes" = true) :
    (connectBT mac now env st).result =
      { success := true, message := "Bereits verbunden mit " ++ getName i2,
        name := some (getName i2) } ∧
    Directive.pairD mac ∉ (connectBT mac now env st).trace ∧
    Directive.connectD mac ∉ (connectBT mac now env st).trace := by
  simp [connectBT, hinfos, popInfo, hconn]

/-- Witness for C1 at the spec's concrete scenario: the transport answers
with the Kitchen Speaker info text, and the parsed name is exactly
"Kitchen Speaker". -/
theorem C1_witness :
    strContains kitchenInfo "Connected: yes" = true ∧
    ((connectBT "AA:BB:CC:DD:EE:FF" 100 envC1 (initManager none)).result =
        { success := true, message := "Bereits verbunden mit " ++ getName kitchenInfo,
          name := some (getName kitchenInfo) } ∧
      Directive.pairD "AA:BB:CC:DD:EE:FF" ∉
        (connectBT "AA:BB:CC:DD:EE:FF" 100 envC1 (initManager none)).trace ∧
      Directive.connectD "AA:BB:CC:DD:EE:FF" ∉
        (connectBT "AA:BB:CC:DD:EE:FF" 100 envC1 (initManager none)).trace) ∧
    getName kitchenInfo = "Kitchen Speaker" :=
  ⟨by decide,
   C1_already_connected_short_circuit "AA:BB:CC:DD:EE:FF" 100 envC1 (initManager none)
     kitchenInfo kitchenInfo [] rfl (by decide),
   by decide⟩

/-- Claim C4: when the connect-wait step fails (no keyword before timeout,
or a failure keyword — either way `_do_connect` reports an error) but the
one-shot `info` re-check after the settle delay reports the device
connected, connect returns success with the name read by the follow-up
query, not failure.  Stated for any call that reaches the connect step:
the device is not already connected, and it is either already paired or
the pairing step succeeded. -/
theorem C4_delayed_success_recognized (mac : String) (now : Int)
    (env : ConnEnv) (st : BTState) (i1 i2 i3 i4 : String) (rest : List String)
    (e : String)
    (hinfos : env.infos = i1 :: i2 :: i3 :: i4 :: rest)
    (h1 : strContains i1 "Connected: yes" = false)
    (hpair : strContains i2 "Paired: yes" = true ∨
             doPair env.pairLines = Except.ok ())
    (hc : doConnect env.connectLines1 = Except.error e)
    (h3 : strContains i3 "Connected: yes" = true) :
    (connectBT mac now env st).result =
      { success := true, message := "Verbunden mit " ++ getName i4,
        name := some (getName i4) } := by
  rcases hpair with hp | hp
  · simp [connectBT, hinfos, popInfo, h1, hp, hc, h3, finalizeConnect]
  · by_cases h2 : strContains i2 "Paired: yes" = true
    · simp [connectBT, hinfos, popInfo, h1, h2, hc, h3, finalizeConnect]
    · simp [connectBT, hinfos, popInfo, h1, h2, hp, hc, h3, finalizeConnect]

/-- Environment for the C4 witness: device already paired, the first
connect-wait stream empty (no keyword before timeout), the re-check
query connected. -/
def envC4 : ConnEnv :=
  { infos := ["Paired: yes", "Paired: yes", "Connected: yes", "Alias: Box\n"],
    pairLines := [], connectLines1 := [], connectLines2 := [] }

/-- Witness for C4: the connect-wait stream yields no keyword (so
`_do_connect` reports the generic failure), yet the re-check query answers
"Connected: yes"; connect returns success with the name "Box". -/
theorem C4_witness :
    (envC4.infos = "Paired: yes" :: "Paired: yes" ::
        "Connected: yes" :: "Alias: Box\n" :: []) ∧
    strContains "Paired: yes" "Connected: yes" = false ∧
    (strContains "Paired: yes" "Paired: yes" = true ∨
      doPair envC4.pairLines = Except.ok ()) ∧
    doConnect envC4.connectLines1 =
      Except.error "Verbindung konnte nicht hergestellt werden" ∧
    strContains "Connected: yes" "Connected: yes" = true ∧
    (connectBT "AA:BB:CC:DD:EE:FF" 100 envC4 (initManager none)).result =
      { success := true, message := "Verbunden mit " ++ getName "Alias: Box\n",
        name := some (getName "Alias: Box\n") } :=
  ⟨rfl, by decide, Or.inl (by decide), rfl, by decide,
   C4_delayed_success_recognized "AA:BB:CC:DD:EE:FF" 100 envC4 (initManager none)
     "Paired: yes" "Paired: yes" "Connected: yes" "Alias: Box\n" []
     "Verbindung konnte nicht hergestellt werden" rfl (by decide)
     (Or.inl (by decide)) rfl (by decide)⟩

/-- Environment for C5: device neither connected nor paired, and the
pairing session's stream delivers the line "Failed to pair". -/
def envC5 : ConnEnv :=
  { infos := ["", ""], pairLines := ["Failed to pair"],
    connectLines1 := [], connectLines2 := [] }

/-- Counterexample to claim C5 as stated: at this concrete input the
pairing wait yields the keyword "Failed to pair" and connect does return a
failure, but its message is the source's German text, not the English
message the claim states. -/
theorem C5_counterexample :
    readUntil pairKeywords envC5.pairLines = some "Failed to pair" ∧
    (connectBT "AA:BB:CC:DD:EE:FF" 0 envC5 (initManager none)).result.success = false ∧
    (connectBT "AA:BB:CC:DD:EE:FF" 0 envC5 (initManager none)).result.message ≠
      "pairing failed — is the device in pairing mode?" := by
  refine ⟨by decide, by decide, by decide⟩

/-- Claim C5 (amended): for an unpaired, not-connected device, when the
pairing wait yields the keyword "Failed to pair", connect returns a
failure with the source's message "Pairing fehlgeschlagen - ist das Gerät
im Pairing-Modus?", never sends a connect directive in that call, and
leaves the manager state unchanged. -/
theorem C5_pairing_failure_terminal (mac : String) (now : Int)
    (env : ConnEnv) (st : BTState) (i1 i2 : String) (rest : List String)
    (hinfos : env.infos = i1 :: i2 :: rest)
    (h1 : strContains i1 "Connected: yes" = false)
    (h2 : strContains i2 "Paired: yes" = false)
    (hp : readUntil pairKeywords env.pairLines = some "Failed to pair") :
    (connectBT mac now env st).result =
      { success := false,
        message := "Pairing fehlgeschlagen - ist das Gerät im Pairing-Modus?",
        name := none } ∧
    Directive.connectD mac ∉ (connectBT mac now env st).trace ∧
    (connectBT mac now env st).state = st := by
  have hdp : doPair env.pairLines =
      Except.error "Pairing fehlgeschlagen - ist das Gerät im Pairing-Modus?" := by
    simp only [doPair, hp]
    rfl
  simp [connectBT, hinfos, popInfo, h1, h2, hdp]

/-- Witness for the amended C5 at the concrete environment of the
counterexample. -/
theorem C5_witness :
    (envC5.infos = "" :: "" :: []) ∧
    strContains "" "Connected: yes" = false ∧
    strContains "" "Paired: yes" = false ∧
    readUntil pairKeywords envC5.pairLines = some "Failed to pair" ∧
    ((connectBT "AA:BB:CC:DD:EE:FF" 0 envC5 (initManager none)).result =
        { success := false,
          message := "Pairing fehlgeschlagen - ist das Gerät im Pairing-Modus?",
          name := none } ∧
      Directive.connectD "AA:BB:CC:DD:EE:FF" ∉
        (connectBT "AA:BB:CC:DD:EE:FF" 0 envC5 (initManager none)).trace ∧
      (connectBT "AA:BB:CC:DD:EE:FF" 0 envC5 (initManager none)).state =
        initManager none) :=
  ⟨rfl, by decide, by decide, by decide,
   C5_pairing_failure_terminal "AA:BB:CC:DD:EE:FF" 0 envC5 (initManager none)
     "" "" [] rfl (by decide) (by decide) (by decide)⟩

/-! ### Helper lemmas: the trace only grows along the workflow -/

/-- `_finalize_connect` only appends to the directive trace. -/
theorem finalizeConnect_trace_mono (mac : String) (now : Int)
    (infos : List String) (tr : List Directive) (st : BTState)
    (d : Directive) (h : d ∈ tr) :
    d ∈ (finalizeConnect mac now infos tr st).trace := by
  simp [finalizeConnect]
  exact Or.inl h

/-- The Versuch-2 polling loop only appends to the directive trace. -/
theorem paWaitLoop_trace_mono (mac : String) (d : Directive) :
    ∀ (n : Nat) (infos : List String) (tr : List Directive),
      d ∈ tr → d ∈ (paWaitLoop mac n infos tr).2.2 := by
  intro n
  induction n with
  | zero => intro infos tr h; simpa [paWaitLoop] using h
  | succ k ih =>
    intro infos tr h
    rw [paWaitLoop]
    split
    split
    · simp [h]
    · exact ih _ _ (by simp [h])

/-- Once the workflow has issued the first connect directive, every later
branch of `connect` keeps it in the trace. -/
theorem connectD_in_trace_of_connect_step (mac : String) (now : Int)
    (env : ConnEnv) (st : BTState) (i1 i2 : String) (rest : List String)
    (hinfos : env.infos = i1 :: i2 :: rest)
    (h1 : strContains i1 "Connected: yes" = false)
    (hpair : strContains i2 "Paired: yes" = true ∨
             doPair env.pairLines = Except.ok ()) :
    Directive.connectD mac ∈ (connectBT mac now env st).trace := by
  have key : ∀ (trP : List Directive) (infos2 : List String),
      Directive.connectD mac ∈
        (match doConnect env.connectLines1 with
          | Except.ok _ => finalizeConnect mac now infos2
              (trP ++ [Directive.disconnectD mac, Directive.connectD mac]) st
          | Except.error _ =>
            let p := popInfo infos2
            let tr4 := trP ++ [Directive.disconnectD mac, Directive.connectD mac] ++
              [Directive.infoQ mac]
            if strContains p.1 "Connected: yes" = true then
              finalizeConnect mac now p.2 tr4 st
            else
              let tr5 := tr4 ++ [Directive.disconnectD mac, Directive.paRestart]
              match paWaitLoop mac 10 p.2 tr5 with
              | (true, infos4, tr6) => finalizeConnect mac now infos4 tr6 st
              | (false, infos4, tr6) =>
                let tr7 := tr6 ++ [Directive.connectD mac]
                match doConnect env.connectLines2 with
                | Except.ok _ => finalizeConnect mac now infos4 tr7 st
                | Except.error e2 =>
                  let q := popInfo infos4
                  let tr8 := tr7 ++ [Directive.infoQ mac]
                  if strContains q.1 "Connected: yes" = true then
                    finalizeConnect mac now q.2 tr8 st
                  else
                    { result := { success := false, message := e2, name := none },
                      state := st, trace := tr8 }).trace := by
    intro trP infos2
    have hbase : Directive.connectD mac ∈
        trP ++ [Directive.disconnectD mac, Directive.connectD mac] := by simp
    rcases hdc : doConnect env.connectLines1 with e | u
    · simp only []
      by_cases h3 : strContains (popInfo infos2).1 "Connected: yes" = true
      · simp only [h3, if_pos rfl]
        exact finalizeConnect_trace_mono _ _ _ _ _ _ (by simp)
      · simp only [h3]
        rw [if_neg Bool.false_ne_true]
        have hin5 : Directive.connectD mac ∈
            trP ++ [Directive.disconnectD mac, Directive.connectD mac] ++
              [Directive.infoQ mac] ++ [Directive.disconnectD mac, Directive.paRestart] := by
          simp
        rcases hpw : paWaitLoop mac 10 (popInfo infos2).2
            (trP ++ [Directive.disconnectD mac, Directive.connectD mac] ++
              [Directive.infoQ mac] ++ [Directive.disconnectD mac, Directive.paRestart])
          with ⟨b, infos4, tr6⟩
        have h6 : Directive.connectD mac ∈ tr6 := by
          have := paWaitLoop_trace_mono mac (Directive.connectD mac) 10
            (popInfo infos2).2
            (trP ++ [Directive.disconnectD mac, Directive.connectD mac] ++
              [Directive.infoQ mac] ++ [Directive.disconnectD mac, Directive.paRestart])
            hin5
          rw [hpw] at this
          exact this
        rcases b with _ | _
        · simp only []
          rcases hdc2 : doConnect env.connectLines2 with e2 | u2
          · by_cases h5 : strContains (popInfo infos4).1 "Connected: yes" = true
            · simp only [h5, if_pos rfl]
              exact finalizeConnect_trace_mono _ _ _ _ _ _ (by simp [h6])
            · simp only []
              rw [if_neg h5]
              simp [h6]
          · exact finalizeConnect_trace_mono _ _ _ _ _ _ (by simp [h6])
        · exact finalizeConnect_trace_mono _ _ _ _ _ _ h6
    · exact finalizeConnect_trace_mono _ _ _ _ _ _ hbase
  rcases hpair with hp | hp
  · simpa [connectBT, hinfos, popInfo, h1, hp] using
      key ([Directive.powerOn, Directive.infoQ mac] ++
        [Directive.infoQ mac, Directive.trustD mac]) rest
  · by_cases h2 : strContains i2 "Paired: yes" = true
    · simpa [connectBT, hinfos, popInfo, h1, h2] using
        key ([Directive.powerOn, Directive.infoQ mac] ++
          [Directive.infoQ mac, Directive.trustD mac]) rest
    · simpa [connectBT, hinfos, popInfo, h1, h2, hp] using
        key ([Directive.powerOn, Directive.infoQ mac] ++
          [Directive.infoQ mac, Directive.trustD mac] ++
          [Directive.scanOnD, Directive.scanOffD, Directive.pairD mac]) rest

/-- Environment for C2: device neither connected nor paired; the pairing
session's stream delivers a connected-notification line, the first
connect-wait stream reports success. -/
def envC2 : ConnEnv :=
  { infos := ["", "", "Alias: Box\n"],
    pairLines := ["[CHG] Device AA:BB:CC:DD:EE:FF Connected: yes"],
    connectLines1 := ["Connection successful"], connectLines2 := [] }

/-- Counterexample to claim C2 as stated: at this concrete input the
pairing wait returns the connected-notification keyword "Connected: yes"
and connect returns success, yet a separate connect directive IS issued —
the code treats the keyword only as a non-failure of pairing and proceeds
to the disconnect/connect attempt instead of short-circuiting. -/
theorem C2_counterexample :
    readUntil pairKeywords envC2.pairLines = some "Connected: yes" ∧
    (connectBT "AA:BB:CC:DD:EE:FF" 0 envC2 (initManager none)).result.success = true ∧
    Directive.connectD "AA:BB:CC:DD:EE:FF" ∈
      (connectBT "AA:BB:CC:DD:EE:FF" 0 envC2 (initManager none)).trace := by
  refine ⟨by decide, by decide, by decide⟩

/-- Claim C2 (amended): when the pairing wait returns the
connected-notification keyword "Connected: yes", the pairing step is
treated as successful (it is not a terminal pairing failure), but the
workflow does not short-circuit: it always proceeds to issue a separate
connect directive. -/
theorem C2_pairing_connected_no_short_circuit (mac : String) (now : Int)
    (env : ConnEnv) (st : BTState) (i1 i2 : String) (rest : List String)
    (hinfos : env.infos = i1 :: i2 :: rest)
    (h1 : strContains i1 "Connected: yes" = false)
    (h2 : strContains i2 "Paired: yes" = false)
    (hp : readUntil pairKeywords env.pairLines = some "Connected: yes") :
    doPair env.pairLines = Except.ok () ∧
    Directive.connectD mac ∈ (connectBT mac now env st).trace := by
  have hdp : doPair env.pairLines = Except.ok () := by
    simp only [doPair, hp]
    rfl
  exact ⟨hdp, connectD_in_trace_of_connect_step mac now env st i1 i2 rest
    hinfos h1 (Or.inr hdp)⟩

/-- Witness for the amended C2 at the concrete environment of the
counterexample. -/
theorem C2_witness :
    (envC2.infos = "" :: "" :: "Alias: Box\n" :: []) ∧
    strContains "" "Connected: yes" = false ∧
    strContains "" "Paired: yes" = false ∧
    readUntil pairKeywords envC2.pairLines = some "Connected: yes" ∧
    (doPair envC2.pairLines = Except.ok () ∧
      Directive.connectD "AA:BB:CC:DD:EE:FF" ∈
        (connectBT "AA:BB:CC:DD:EE:FF" 0 envC2 (initManager none)).trace) :=
  ⟨rfl, by decide, by decide, by decide,
   C2_pairing_connected_no_short_circuit "AA:BB:CC:DD:EE:FF" 0 envC2
     (initManager none) "" "" ["Alias: Box\n"] rfl (by decide) (by decide)
     (by decide)⟩

/-- Counterexample to claim C3 as stated: construction (`__init__` +
`_load_config`) is a pure function of the persisted file — it consumes no
transport response, so no verification and no connect workflow can have
observed anything — yet with this persisted config the current-device
address is non-null immediately after construction. -/
theorem C3_counterexample :
    (initManager (some { last_device := some "AA:BB:CC:DD:EE:FF",
                         last_device_name := some "Box" })).connected_device =
      some "AA:BB:CC:DD:EE:FF" := rfl

/-- Claim C3 (amended): immediately after construction the current-device
address is whatever the persisted config held, with no verification; the
live check reports no connected device, and the invariant is only
established by the verification path: for a truthy (non-null, non-empty)
restored address, the first live check outside the 10-second cache window
whose `info` response does not report a connected link clears the address
(persisting the cleared state); a falsy restored address makes the check
return early with the state untouched. -/
theorem C3_startup_restores_unverified (cfg : SavedConfig) (now : Int)
    (info : String) (hnow : 10 ≤ now)
    (hinfo : strContains info "Connected: yes" = false) :
    (initManager (some cfg)).connected_device = cfg.last_device ∧
    (getConnectedLive now info (initManager (some cfg))).1 = none ∧
    (truthyStr cfg.last_device = true →
      (getConnectedLive now info (initManager (some cfg))).2.connected_device = none) := by
  have hge : ¬ now - 0 < 10 := by omega
  have hge2 : ¬ now < 10 := by omega
  refine ⟨rfl, ?_, ?_⟩
  · rcases h : cfg.last_device with _ | mac
    · simp [getConnectedLive, initManager, h]
    · by_cases hm : mac = ""
      · simp [getConnectedLive, initManager, h, hm]
      · simp [getConnectedLive, initManager, h, hm, hinfo, saveConfig, hge, hge2]
  · intro ht
    rcases h : cfg.last_device with _ | mac
    · rw [h] at ht
      simp [truthyStr] at ht
    · have hm : ¬ mac = "" := by
        rw [h] at ht
        simpa [truthyStr] using ht
      simp [getConnectedLive, initManager, h, hm, hinfo, saveConfig, hge, hge2]

/-- Witness for the amended C3: a persisted (truthy) device, a check 60
seconds in, and an `info` response that does not report a connected link. -/
theorem C3_witness :
    (10 ≤ (60 : Int)) ∧
    strContains "Connected: no" "Connected: yes" = false ∧
    truthyStr (some "AA:BB:CC:DD:EE:FF") = true ∧
    ((initManager (some { last_device := some "AA:BB:CC:DD:EE:FF",
                          last_device_name := some "Box" })).connected_device =
        some "AA:BB:CC:DD:EE:FF" ∧
      (getConnectedLive 60 "Connected: no"
          (initManager (some { last_device := some "AA:BB:CC:DD:EE:FF",
                               last_device_name := some "Box" }))).1 = none ∧
      (getConnectedLive 60 "Connected: no"
          (initManager (some { last_device := some "AA:BB:CC:DD:EE:FF",
                               last_device_name := some "Box" }))).2.connected_device =
        none) :=
  ⟨by norm_num, by decide, by decide,
   (C3_startup_restores_unverified
     { last_device := some "AA:BB:CC:DD:EE:FF", last_device_name := some "Box" }
     60 "Connected: no" (by norm_num) (by decide)).1,
   (C3_startup_restores_unverified
     { last_device := some "AA:BB:CC:DD:EE:FF", last_device_name := some "Box" }
     60 "Connected: no" (by norm_num) (by decide)).2.1,
   (C3_startup_restores_unverified
     { last_device := some "AA:BB:CC:DD:EE:FF", last_device_name := some "Box" }
     60 "Connected: no" (by norm_num) (by decide)).2.2 (by decide)⟩

/-- Claim C6: however the background scan loop exits — the event stream
ending, or a transport exception raised mid-scan — the finally-clause
semantics of the worker sets the scanning flag back to false. -/
theorem C6_scanning_never_sticks (events : List ScanEvent) (st : ScanState) :
    (scanThread events st).scanning = false := by
  rcases h : scanLoopBody st.discovered events with ⟨c, d⟩
  simp [scanThread, h]

/-- Claim C8: for every command, a one-shot transport query that times out
or fails to spawn returns empty text from both `_btctl` and `_run_cmd`;
both are total functions (no exception escapes the transport boundary). -/
theorem C8_transport_fails_soft (cmd : String) (o : ProcOutcome)
    (h : o = ProcOutcome.timedOut ∨ ∃ m, o = ProcOutcome.spawnFailed m) :
    btctlQuery cmd o = "" ∧ runCmd cmd o = "" := by
  rcases h with h | ⟨m, h⟩ <;> subst h <;> exact ⟨rfl, rfl⟩

/-- Witness for C8: a timed-out `info` query yields empty text. -/
theorem C8_witness :
    (ProcOutcome.timedOut = ProcOutcome.timedOut ∨
      ∃ m, ProcOutcome.timedOut = ProcOutcome.spawnFailed m) ∧
    (btctlQuery "info AA:BB:CC:DD:EE:FF" ProcOutcome.timedOut = "" ∧
      runCmd "info AA:BB:CC:DD:EE:FF" ProcOutcome.timedOut = "") :=
  ⟨Or.inl rfl,
   C8_transport_fails_soft "info AA:BB:CC:DD:EE:FF" ProcOutcome.timedOut (Or.inl rfl)⟩

/-- Claim C9: a discovery line whose parsed name — after stripping — is
identical to the device's address, or consists only of hex digits, colons
and hyphens, is never added to the discovered-devices map (the map is left
unchanged by that line). -/
theorem C9_unnamed_advertiser_filtered (disc : List (String × String))
    (line mac rawName : String)
    (hparse : parseDeviceLine line.data = some (mac, rawName))
    (hbad : pyStrip rawName = mac ∨ hexPatOnly (pyStrip rawName) = true) :
    processScanLine disc line = disc := by
  rcases hbad with hb | hb
  · simp [processScanLine, hparse, hb]
  · simp [processScanLine, hparse, hb]

/-- A discovery line whose name is the address re-rendered with hyphens. -/
def scanLineUnnamed : String := "[NEW] Device AA:BB:CC:DD:EE:FF AA-BB-CC-DD-EE-FF\n"

/-- Witness for C9: the hyphen-rendered advertiser name is filtered and
the discovered map stays empty. -/
theorem C9_witness :
    parseDeviceLine scanLineUnnamed.data =
      some ("AA:BB:CC:DD:EE:FF", "AA-BB-CC-DD-EE-FF") ∧
    (pyStrip "AA-BB-CC-DD-EE-FF" = "AA:BB:CC:DD:EE:FF" ∨
      hexPatOnly (pyStrip "AA-BB-CC-DD-EE-FF") = true) ∧
    processScanLine [] scanLineUnnamed = [] :=
  ⟨by decide, Or.inr (by decide),
   C9_unnamed_advertiser_filtered [] scanLineUnnamed "AA:BB:CC:DD:EE:FF"
     "AA-BB-CC-DD-EE-FF" (by decide) (Or.inr (by decide))⟩

/-- Claim C10: a disconnect call with no address argument while no current
device is set returns False, issues no directive, and leaves the state —
including the persisted config — unchanged. -/
theorem C10_disconnect_without_target_is_noop (st : BTState)
    (h : st.connected_device = none) :
    disconnectBT none st = (false, st, []) := by
  simp [disconnectBT, pyOrStr, truthyStr, h]

/-- Witness for C10: a freshly constructed manager with no persisted
device. -/
theorem C10_witness :
    ((initManager none).connected_device = none) ∧
    disconnectBT none (initManager none) = (false, initManager none, []) :=
  ⟨rfl, C10_disconnect_without_target_is_noop (initManager none) rfl⟩
